import Mathlib

/-!
Verification of the Flexiloan client-onboarding backend.

The embedded code is the Express backend in `src/frontend/src/App.jsx`
(the part after the document separator): the `POST /api/clients` handler
(validation, call to the external scoring service with a fallback score,
offer derivation, persistence via Mongoose) and the `GET /api/clients`
handler (listing, sorted by `createdAt` descending).

JavaScript values that can flow through the handler (request-body fields
and the scoring service's `repayment_score` field) are modelled by
`JSValue`: a number (as a rational), a string, or `undefined`.  Numeric
coercion of a value (`jsToNum`, backed by the `Number(string)` grammar
in `jsStringToNumber`) yields a `JSNum`: `NaN` — which compares `false`
under `>`, exactly as in JS — an infinity, or a finite rational.
`jsParseInt` models `parseInt`, with `none` for `NaN`.
-/

namespace Flexiloan

/-- A JavaScript value as it can appear in a JSON request body or in the
scoring service's response field. -/
inductive JSValue where
  | undef : JSValue
  | num : ℚ → JSValue
  | str : String → JSValue
deriving DecidableEq

/-- JS truthiness test restricted to the values representable here:
`undefined`, `0` and `""` are falsy, everything else truthy.
Models the `!x` checks on line 269 of the source. -/
def falsy : JSValue → Bool
  | .undef => true
  | .num q => decide (q = 0)
  | .str s => decide (s = "")

/-- Numeric value of a list of decimal digit characters. -/
def natOfDigits (cs : List Char) : ℕ :=
  cs.foldl (fun a c => a * 10 + (c.toNat - 48)) 0

/-- A JS number as it can arise from coercing one of our values: `NaN`,
an infinity, or a finite value (a rational — every decimal numeral is
one; floating-point rounding is outside the model). -/
inductive JSNum where
  | nan : JSNum
  | inf : Bool → JSNum
  | fin : ℚ → JSNum
deriving DecidableEq

/-- The whitespace code points JS trims in `Number(string)`: tab,
line feed, vertical tab, form feed, carriage return, space, NBSP, the
Unicode space separators, the line and paragraph separators, and the
BOM. -/
def isJSSpace (c : Char) : Bool :=
  [0x9, 0xA, 0xB, 0xC, 0xD, 0x20, 0xA0, 0x1680, 0x2000, 0x2001, 0x2002,
   0x2003, 0x2004, 0x2005, 0x2006, 0x2007, 0x2008, 0x2009, 0x200A,
   0x2028, 0x2029, 0x202F, 0x205F, 0x3000, 0xFEFF].contains c.toNat

/-- Strip leading and trailing JS whitespace. -/
def jsTrim (cs : List Char) : List Char :=
  ((cs.dropWhile isJSSpace).reverse.dropWhile isJSSpace).reverse

/-- Value of a hexadecimal digit character. -/
def hexVal (c : Char) : Option ℕ :=
  if c.isDigit then some (c.toNat - 48)
  else if 'a' ≤ c ∧ c ≤ 'f' then some (c.toNat - 87)
  else if 'A' ≤ c ∧ c ≤ 'F' then some (c.toNat - 55)
  else none

/-- Value of an octal digit character. -/
def octVal (c : Char) : Option ℕ :=
  if '0' ≤ c ∧ c ≤ '7' then some (c.toNat - 48) else none

/-- Value of a binary digit character. -/
def binVal (c : Char) : Option ℕ :=
  if c = '0' then some 0 else if c = '1' then some 1 else none

/-- Read a non-empty all-digit numeral in the given radix (the bodies
of the JS `0x`/`0o`/`0b` literals); anything else is `NaN`. -/
def radixRead (r : ℕ) (dv : Char → Option ℕ) (cs : List Char) : JSNum :=
  if cs.isEmpty then .nan
  else
    match (cs.foldl (fun a c => a.bind fun n => (dv c).map fun d => n * r + d)
        (some 0) : Option ℕ) with
    | some n => .fin (n : ℚ)
    | none => .nan

/-- Value of a decimal numeral with `m` the digits read as an integer,
`k` the number of fractional digits, and `e` the exponent:
`m * 10 ^ (e - k)` (built with `mkRat`, which the kernel can compute). -/
def decValue (m k : ℕ) (e : ℤ) : ℚ :=
  if 0 ≤ e - (k : ℤ) then ((m * 10 ^ (e - (k : ℤ)).toNat : ℕ) : ℚ)
  else mkRat (m : ℤ) (10 ^ ((k : ℤ) - e).toNat)

/-- Parse the JS `StrUnsignedDecimalLiteral` grammar (minus `Infinity`,
handled by the caller): digits with an optional fractional part (at
least one digit on one of the two sides, so `".5"` and `"5."` are
accepted) and an optional `e`/`E` exponent with optional sign.  `none`
is `NaN`. -/
def decLit (cs : List Char) : Option ℚ :=
  let ip := cs.takeWhile (·.isDigit)
  let r1 := cs.dropWhile (·.isDigit)
  let fr : List Char × List Char :=
    match r1 with
    | '.' :: t => (t.takeWhile (·.isDigit), t.dropWhile (·.isDigit))
    | _ => ([], r1)
  if ip.isEmpty ∧ fr.1.isEmpty then none
  else
    let m := natOfDigits (ip ++ fr.1)
    let k := fr.1.length
    match fr.2 with
    | [] => some (decValue m k 0)
    | e :: t =>
      if e = 'e' ∨ e = 'E' then
        match t with
        | '+' :: u =>
          if u.isEmpty ∨ ¬ u.all (·.isDigit) then none
          else some (decValue m k (natOfDigits u : ℤ))
        | '-' :: u =>
          if u.isEmpty ∨ ¬ u.all (·.isDigit) then none
          else some (decValue m k (-(natOfDigits u : ℤ)))
        | u =>
          if u.isEmpty ∨ ¬ u.all (·.isDigit) then none
          else some (decValue m k (natOfDigits u : ℤ))
      else none

/-- A signed JS decimal body: `Infinity` or a `StrUnsignedDecimalLiteral`,
negated when `neg` is set. -/
def signedDecOrInf (neg : Bool) (body : List Char) : JSNum :=
  if body = "Infinity".data then .inf !neg
  else
    match decLit body with
    | some q => .fin (if neg then -q else q)
    | none => .nan

/-- JS `Number(string)` (the `StringNumericLiteral` grammar): trim JS
whitespace; the empty remainder is `0`; an explicit sign admits only a
decimal literal or `Infinity`; unsigned bodies may also be `0x`/`0o`/`0b`
radix literals; everything else is `NaN`. -/
def jsStringToNumber (s : String) : JSNum :=
  match jsTrim s.data with
  | [] => .fin 0
  | '+' :: t => signedDecOrInf false t
  | '-' :: t => signedDecOrInf true t
  | '0' :: c :: t =>
    if c = 'x' ∨ c = 'X' then radixRead 16 hexVal t
    else if c = 'o' ∨ c = 'O' then radixRead 8 octVal t
    else if c = 'b' ∨ c = 'B' then radixRead 2 binVal t
    else signedDecOrInf false ('0' :: c :: t)
  | cs => signedDecOrInf false cs

/-- Numeric coercion of a JS value (`Number(v)`): `undefined` is `NaN`,
numbers are themselves, strings go through the `Number(string)`
grammar. -/
def jsToNum : JSValue → JSNum
  | .undef => .nan
  | .num q => .fin q
  | .str s => jsStringToNumber s

/-- JS `v > c` for a numeric literal `c`: coerce `v` to a number and
compare; any comparison with `NaN` is `false`, and an infinity compares
by its sign. -/
def jsGT (v : JSValue) (c : ℚ) : Bool :=
  match jsToNum v with
  | .fin q => decide (c < q)
  | .nan => false
  | .inf pos => pos

/-- JS `parseInt(v)`: stringify, read an optional sign and the leading
digits; `none` = `NaN`.  On a number argument this truncates toward
zero.  Models line 274 of the source. -/
def jsParseInt : JSValue → Option ℤ
  | .undef => none
  | .num q => some (Int.tdiv q.num (q.den : ℤ))
  | .str s =>
    match s.data with
    | '-' :: cs =>
      let d := cs.takeWhile (·.isDigit)
      if d.isEmpty then none else some (-(natOfDigits d : ℤ))
    | cs =>
      let d := cs.takeWhile (·.isDigit)
      if d.isEmpty then none else some ((natOfDigits d : ℤ))

/-- String interpolation of a JS value (template literals). -/
def jsToString : JSValue → String
  | .undef => "undefined"
  | .num q => toString q
  | .str s => s

/-- Offer label of the premium tier (line 289 of the source). -/
def premiumOffer : String := "خصم 15% على الفوائد"

/-- Message of the premium tier (line 290 of the source). -/
def premiumMessage (name : String) : String :=
  "تهانينا " ++ name ++ "! بناءً على تقييمك الممتاز، يسعدنا أن نقدم لك خصمًا خاصًا."

/-- Offer label of the extension tier (line 292 of the source). -/
def extensionOffer : String := "تمديد فترة السداد"

/-- Message of the extension tier (line 293 of the source). -/
def extensionMessage (name : String) : String :=
  "مرحباً " ++ name ++ ", أنت مؤهل لتمديد فترة سداد قرضك لتخفيف الأقساط الشهرية."

/-- Offer label of the review tier (line 295 of the source). -/
def reviewOffer : String := "مراجعة الحساب مطلوبة"

/-- Message of the review tier (line 296 of the source). -/
def reviewMessage (name : String) : String :=
  "السيد/ة " ++ name ++ ", نود تحديد موعد لمراجعة حسابك وبحث أفضل الحلول المالية لك."

/-- The premium threshold, the literal `0.8` on line 288 of the source
(written `mkRat 8 10` so that the kernel can compute with it). -/
def hiThreshold : ℚ := mkRat 8 10

/-- The extension threshold, the literal `0.5` on line 291 of the source. -/
def midThreshold : ℚ := mkRat 5 10

/-- The fallback score, the literal `0.1` on line 283 of the source. -/
def fallbackScore : ℚ := mkRat 1 10

/-- The offer engine, lines 288-297 of the source: the score (a JS
value, compared with JS `>`) is mapped to an (offer, message) pair by
the ordered threshold chain `score > 0.8` / `score > 0.5` / else. -/
def deriveOffer (score : JSValue) (name : String) : String × String :=
  if jsGT score hiThreshold then (premiumOffer, premiumMessage name)
  else if jsGT score midThreshold then (extensionOffer, extensionMessage name)
  else (reviewOffer, reviewMessage name)

/-- The three offer tiers, ordered worst to best. -/
inductive Tier where
  | review : Tier
  | extension : Tier
  | premium : Tier
deriving DecidableEq, Fintype

/-- Which tier the threshold chain of `deriveOffer` selects. -/
def tierOf (score : JSValue) : Tier :=
  if jsGT score hiThreshold then .premium
  else if jsGT score midThreshold then .extension
  else .review

/-- Offer label of a tier. -/
def offerLabel : Tier → String
  | .premium => premiumOffer
  | .extension => extensionOffer
  | .review => reviewOffer

/-- Numeric rank of a tier: larger is better (closer to premium). -/
def tierRank : Tier → ℕ
  | .review => 0
  | .extension => 1
  | .premium => 2

/-- A JSON request body for `POST /api/clients`: the four fields read on
line 266 of the source.  A field absent from the JSON is `undef`. -/
structure ReqBody where
  name : JSValue
  age : JSValue
  income : JSValue
  loans : JSValue
deriving DecidableEq

/-- The validation on line 269 of the source:
`!name || !age || !income || loans === undefined`. -/
def validationFails (b : ReqBody) : Bool :=
  falsy b.name || falsy b.age || falsy b.income || decide (b.loans = JSValue.undef)

/-- The feature vector sent to the scoring service, line 274 of the
source: `[parseInt(age), parseInt(income), parseInt(loans)]` (a JS `NaN`
entry, `none` here, serializes as JSON `null`). -/
def featuresOf (b : ReqBody) : List (Option ℤ) :=
  [jsParseInt b.age, jsParseInt b.income, jsParseInt b.loans]

/-- Outcome of the `axios.post` to the scoring service (lines 278-279):
either the promise resolves with a success response, carrying the value
of its `repayment_score` field (`undef` when the field is absent), or it
rejects (transport error, timeout, or a non-2xx status — axios throws on
all of these). -/
inductive AIOutcome where
  | success : JSValue → AIOutcome
  | failure : AIOutcome
deriving DecidableEq

/-- A persisted client document (the Mongoose `Client` model, lines
232-242 of the source): the six stored fields after casting, plus the
identity and the `createdAt` timestamp Mongoose assigns at save time. -/
structure ClientRecord where
  id : ℕ
  name : String
  age : ℚ
  income : ℚ
  loans : ℚ
  score : ℚ
  offer : String
  message : String
  createdAt : ℕ
deriving DecidableEq

/-- Mongoose cast of a value to a schema `Number` field: numbers are
kept, strings are coerced with `Number(string)` and a `NaN` result is a
cast error, an absent value fails the `required` check (`none`).  A
string reading as an IEEE infinity would be stored as that infinity;
infinite stored values are outside this finite-rational model, and no
theorem below touches that case. -/
def castNumber : JSValue → Option ℚ
  | .num q => some q
  | .str s =>
    match jsStringToNumber s with
    | .fin q => some q
    | .nan => none
    | .inf _ => none
  | .undef => none

/-- Mongoose cast of a value to a schema `String` field; an absent
value fails the `required` check (`none`). -/
def castString : JSValue → Option String
  | .str s => some s
  | .num q => some (toString q)
  | .undef => none

/-- Building and validating the new `Client` document (lines 300-310 of
the source): the raw body fields `name`, `age`, `income`, `loans` — not
the `parseInt`ed features — together with the score, offer and message
are cast against the schema; any cast error or missing required field
(an empty required string included) makes `save()` reject. -/
def buildClient (b : ReqBody) (score : JSValue) (offer message : String)
    (newId now : ℕ) : Option ClientRecord :=
  (castString b.name).bind fun n =>
  (castNumber b.age).bind fun a =>
  (castNumber b.income).bind fun i =>
  (castNumber b.loans).bind fun l =>
  (castNumber score).bind fun s =>
  if n = "" then none
  else some { id := newId, name := n, age := a, income := i, loans := l,
              score := s, offer := offer, message := message, createdAt := now }

/-- HTTP result of `POST /api/clients`. -/
inductive PostResult where
  | badRequest : String → PostResult
  | created : ClientRecord → PostResult
  | serverError : String → PostResult
deriving DecidableEq

/-- The 400 message of line 270 of the source. -/
def missingFieldsMsg : String :=
  "Please provide all required fields: name, age, income, and loans."

/-- The 500 message of line 315 of the source. -/
def createErrorMsg : String := "Server error while creating the client."

/-- The 500 message of line 256 of the source. -/
def fetchErrorMsg : String := "Server error while fetching clients."

/-- Everything observable about one `POST /api/clients` request: the
HTTP response, the database afterwards, and how many outbound calls to
the scoring service were issued (the handler contains a single
`axios.post` to the scoring endpoint and no retry loop, so this is `0`
or `1`). -/
structure PostOutcome where
  result : PostResult
  db : List ClientRecord
  aiCalls : ℕ
deriving DecidableEq

/-- The value `score` holds after lines 277-284 of the source: a
rejected scoring call is caught locally and replaced by the constant
fallback score; a resolved response's `repayment_score` field is used
as-is, whatever JS value it is. -/
def resolvedScore : AIOutcome → JSValue
  | .success v => v
  | .failure => .num fallbackScore

/-- The `POST /api/clients` handler, lines 264-317 of the source.
`ai` is the behaviour of the external scoring service on the feature
vector it receives; `storeOk` is whether MongoDB accepts the save
(`false` makes `save()` reject); `db` is the store's contents and `now`
the timestamp Mongoose will assign.  Steps: (1) the truthiness
validation, a 400 before any outbound call on failure; (2) one call to
the scoring service, a rejection caught locally and replaced by the
constant fallback score `0.1`, a resolved response's `repayment_score`
field used as-is; (3) the threshold chain; (4) `save()`, any rejection
caught by the outer handler as a 500. -/
def postClients (b : ReqBody) (ai : List (Option ℤ) → AIOutcome)
    (storeOk : Bool) (db : List ClientRecord) (now : ℕ) : PostOutcome :=
  if validationFails b then
    ⟨.badRequest missingFieldsMsg, db, 0⟩
  else
    let score := resolvedScore (ai (featuresOf b))
    let om := deriveOffer score (jsToString b.name)
    match buildClient b score om.1 om.2 db.length now with
    | some c =>
      if storeOk then ⟨.created c, db ++ [c], 1⟩
      else ⟨.serverError createErrorMsg, db, 1⟩
    | none => ⟨.serverError createErrorMsg, db, 1⟩

/-- HTTP result of `GET /api/clients`. -/
inductive GetResult where
  | ok : List ClientRecord → GetResult
  | serverError : String → GetResult
deriving DecidableEq

/-- Creation-time-descending order on records (newest first). -/
def byCreatedDesc (a b : ClientRecord) : Prop := b.createdAt ≤ a.createdAt

instance : DecidableRel byCreatedDesc := fun _ _ => Nat.decLe _ _

instance : IsTotal ClientRecord byCreatedDesc :=
  ⟨fun a b => (Nat.le_total b.createdAt a.createdAt).imp id id⟩

instance : IsTrans ClientRecord byCreatedDesc :=
  ⟨fun _ _ _ h1 h2 => le_trans h2 h1⟩

/-- The query `Client.find().sort` with `createdAt` descending on line
252 of the source: all stored records, ordered by creation time, most
recent first. -/
def sortByCreatedDesc (db : List ClientRecord) : List ClientRecord :=
  List.insertionSort byCreatedDesc db

/-- The `GET /api/clients` handler, lines 250-258 of the source: return
every stored record sorted newest-first, or a 500 when the read fails;
the store is left untouched either way. -/
def getClients (storeOk : Bool) (db : List ClientRecord) :
    GetResult × List ClientRecord :=
  if storeOk then (.ok (sortByCreatedDesc db), db)
  else (.serverError fetchErrorMsg, db)

/-- The kernel-friendly form of the premium threshold is the source's
literal `0.8`. -/
theorem hiThreshold_eq : hiThreshold = 0.8 := by
  rw [hiThreshold, Rat.mkRat_eq_div]; norm_num

/-- The kernel-friendly form of the extension threshold is the source's
literal `0.5`. -/
theorem midThreshold_eq : midThreshold = 0.5 := by
  rw [midThreshold, Rat.mkRat_eq_div]; norm_num

/-- The kernel-friendly form of the fallback score is the source's
literal `0.1`. -/
theorem fallbackScore_eq : fallbackScore = 0.1 := by
  rw [fallbackScore, Rat.mkRat_eq_div]; norm_num

/-- Evaluation of `jsGT` on an actual number: the rational comparison. -/
theorem jsGT_num (q c : ℚ) : jsGT (.num q) c = decide (c < q) := rfl

/-- The three offer labels are pairwise distinct, so the label
determines the tier. -/
theorem offerLabel_inj : ∀ t u : Tier, offerLabel t = offerLabel u → t = u := by
  decide

/-- Evaluation of `deriveOffer` on an actual number, characterized by
rational comparisons against the source's threshold literals. -/
theorem deriveOffer_num (s : ℚ) (name : String) :
    deriveOffer (.num s) name =
      if 0.8 < s then (premiumOffer, premiumMessage name)
      else if 0.5 < s then (extensionOffer, extensionMessage name)
      else (reviewOffer, reviewMessage name) := by
  rw [deriveOffer, jsGT_num, jsGT_num, hiThreshold_eq, midThreshold_eq]
  by_cases h1 : (0.8 : ℚ) < s <;> by_cases h2 : (0.5 : ℚ) < s <;>
    simp [h1, h2]

/-- Evaluation of `tierOf` on an actual number, characterized by
rational comparisons against the source's threshold literals. -/
theorem tierOf_num (s : ℚ) :
    tierOf (.num s) =
      if 0.8 < s then .premium else if 0.5 < s then .extension else .review := by
  rw [tierOf, jsGT_num, jsGT_num, hiThreshold_eq, midThreshold_eq]
  by_cases h1 : (0.8 : ℚ) < s <;> by_cases h2 : (0.5 : ℚ) < s <;>
    simp [h1, h2]

/-- A body whose four fields are a non-empty name string and three
numbers with nonzero age and income passes the truthiness validation. -/
theorem validationFails_typed (n : String) (a i l : ℚ)
    (hn : n ≠ "") (ha : a ≠ 0) (hi : i ≠ 0) :
    validationFails ⟨.str n, .num a, .num i, .num l⟩ = false := by
  simp [validationFails, falsy, hn, ha, hi]

/-- Master computation of the good path of `postClients`: when the body
passes validation with a non-empty string name and numeric fields, and
the score the handler ends up with is an actual number `sc`, the record
built from the raw fields, `sc` and the derived offer is saved when the
store accepts it, and the save failure is a 500 otherwise. -/
theorem postClients_good (n : String) (a i l : ℚ)
    (ai : List (Option ℤ) → AIOutcome) (storeOk : Bool)
    (db : List ClientRecord) (now : ℕ) (sc : ℚ)
    (hn : n ≠ "") (ha : a ≠ 0) (hi : i ≠ 0)
    (hsc : resolvedScore (ai (featuresOf ⟨.str n, .num a, .num i, .num l⟩)) = .num sc) :
    postClients ⟨.str n, .num a, .num i, .num l⟩ ai storeOk db now =
      if storeOk then
        ⟨.created ⟨db.length, n, a, i, l, sc,
            (deriveOffer (.num sc) n).1, (deriveOffer (.num sc) n).2, now⟩,
         db ++ [⟨db.length, n, a, i, l, sc,
            (deriveOffer (.num sc) n).1, (deriveOffer (.num sc) n).2, now⟩], 1⟩
      else ⟨.serverError createErrorMsg, db, 1⟩ := by
  rw [postClients]
  rw [validationFails_typed n a i l hn ha hi]
  simp only [Bool.false_eq_true, if_false, hsc]
  simp only [buildClient, castString, castNumber, Option.some_bind, jsToString]
  rw [if_neg hn]

/-- C1: `deriveOffer` maps a score to exactly one of three tiers with
strict boundaries: for every score `s`, `s > 0.8` yields the premium
offer, `0.5 < s ≤ 0.8` the extension offer, and `s ≤ 0.5` the review
offer; the boundary values `0.8` and `0.5` fall to the extension and
review tiers respectively, and every tier's message contains the
client's name.  (`hiThreshold` and `midThreshold` are the source's
literals `0.8` and `0.5`, pinned by the first two conjuncts.) -/
theorem deriveOffer_three_tiers (s : ℚ) (name : String) :
    hiThreshold = 0.8 ∧ midThreshold = 0.5 ∧
    (hiThreshold < s →
      deriveOffer (.num s) name = (premiumOffer, premiumMessage name)) ∧
    (midThreshold < s → s ≤ hiThreshold →
      deriveOffer (.num s) name = (extensionOffer, extensionMessage name)) ∧
    (s ≤ midThreshold →
      deriveOffer (.num s) name = (reviewOffer, reviewMessage name)) ∧
    deriveOffer (.num hiThreshold) name = (extensionOffer, extensionMessage name) ∧
    deriveOffer (.num midThreshold) name = (reviewOffer, reviewMessage name) ∧
    (∃ pre post, (deriveOffer (.num s) name).2 = pre ++ name ++ post) := by
  refine ⟨hiThreshold_eq, midThreshold_eq, ?_, ?_, ?_, ?_, ?_, ?_⟩
  · intro h
    rw [hiThreshold_eq] at h
    rw [deriveOffer_num, if_pos h]
  · intro h1 h2
    rw [midThreshold_eq] at h1
    rw [hiThreshold_eq] at h2
    rw [deriveOffer_num, if_neg (not_lt.mpr h2), if_pos h1]
  · intro h
    rw [midThreshold_eq] at h
    rw [deriveOffer_num, if_neg (by linarith), if_neg (not_lt.mpr h)]
  · rw [hiThreshold_eq, deriveOffer_num, if_neg (lt_irrefl _), if_pos (by norm_num)]
  · rw [midThreshold_eq, deriveOffer_num, if_neg (by norm_num), if_neg (lt_irrefl _)]
  · rw [deriveOffer]
    by_cases h1 : jsGT (.num s) hiThreshold <;> by_cases h2 : jsGT (.num s) midThreshold <;>
      simp only [h1, h2, if_true, if_false, Bool.false_eq_true, ite_true, ite_false]
    · exact ⟨"تهانينا ", _, rfl⟩
    · exact ⟨"تهانينا ", _, rfl⟩
    · exact ⟨"مرحباً ", _, rfl⟩
    · exact ⟨"السيد/ة ", _, rfl⟩

/-- C1 witness: the tiering evaluated at concrete scores 0.9, 0.7
and 0.3 for the client "Sara". -/
theorem deriveOffer_three_tiers_witness :
    deriveOffer (.num (mkRat 9 10)) "Sara" = (premiumOffer, premiumMessage "Sara") ∧
    deriveOffer (.num (mkRat 7 10)) "Sara" = (extensionOffer, extensionMessage "Sara") ∧
    deriveOffer (.num (mkRat 3 10)) "Sara" = (reviewOffer, reviewMessage "Sara") :=
  ⟨(deriveOffer_three_tiers (mkRat 9 10) "Sara").2.2.1 (by decide),
   (deriveOffer_three_tiers (mkRat 7 10) "Sara").2.2.2.1 (by decide) (by decide),
   (deriveOffer_three_tiers (mkRat 3 10) "Sara").2.2.2.2.1 (by decide)⟩

/-- C7: the offer tiering is a total function of the score — exactly
one of the three tiers is selected, and the offer label written to the
record is that tier's label — and it is monotonic: a higher score never
selects a tier of lower rank (review < extension < premium). -/
theorem tiering_total_and_monotone (s1 s2 : ℚ) (name : String) (h : s1 ≤ s2) :
    tierRank (tierOf (.num s1)) ≤ tierRank (tierOf (.num s2)) ∧
    (deriveOffer (.num s1) name).1 = offerLabel (tierOf (.num s1)) ∧
    (∃! t : Tier, offerLabel t = (deriveOffer (.num s1) name).1) := by
  have hlabel : (deriveOffer (.num s1) name).1 = offerLabel (tierOf (.num s1)) := by
    rw [deriveOffer_num, tierOf_num]
    by_cases h1 : (0.8 : ℚ) < s1 <;> by_cases h2 : (0.5 : ℚ) < s1 <;>
      simp [h1, h2, offerLabel]
  refine ⟨?_, hlabel, ?_⟩
  · rw [tierOf_num, tierOf_num]
    by_cases h1 : (0.8 : ℚ) < s1 <;> by_cases h2 : (0.5 : ℚ) < s1 <;>
      by_cases h3 : (0.8 : ℚ) < s2 <;> by_cases h4 : (0.5 : ℚ) < s2 <;>
      simp [h1, h2, h3, h4, tierRank] <;> linarith
  · exact ⟨tierOf (.num s1), hlabel.symm, fun t ht => offerLabel_inj t _ (ht.trans hlabel)⟩

/-- C7 witness: monotonicity and totality evaluated at the concrete
pair of scores 0.3 ≤ 0.9. -/
theorem tiering_total_and_monotone_witness :
    tierRank (tierOf (.num (mkRat 3 10))) ≤ tierRank (tierOf (.num (mkRat 9 10))) ∧
    (deriveOffer (.num (mkRat 3 10)) "Sara").1 = offerLabel (tierOf (.num (mkRat 3 10))) :=
  ⟨(tiering_total_and_monotone (mkRat 3 10) (mkRat 9 10) "Sara" (by decide)).1,
   (tiering_total_and_monotone (mkRat 3 10) (mkRat 9 10) "Sara" (by decide)).2.1⟩

/-- The offer derived from the fallback score is the review tier. -/
theorem deriveOffer_fallback (name : String) :
    deriveOffer (.num fallbackScore) name = (reviewOffer, reviewMessage name) := by
  rw [deriveOffer,
    (by decide : jsGT (.num fallbackScore) hiThreshold = false),
    (by decide : jsGT (.num fallbackScore) midThreshold = false)]
  rfl

/-- C2: when the outbound scoring call fails (the promise rejects on a
transport error, timeout or non-success status), onboarding of a valid
input still succeeds: the error is caught locally (the response is 201,
not an error), exactly one outbound call was made (no retry), the
persisted score is the fallback constant — which equals the literal
`0.1` — and the derived offer is the review tier. -/
theorem scoring_failure_uses_fallback (n : String) (a i l : ℚ)
    (db : List ClientRecord) (now : ℕ)
    (hn : n ≠ "") (ha : a ≠ 0) (hi : i ≠ 0) :
    postClients ⟨.str n, .num a, .num i, .num l⟩ (fun _ => .failure) true db now =
      ⟨.created ⟨db.length, n, a, i, l, fallbackScore,
          reviewOffer, reviewMessage n, now⟩,
       db ++ [⟨db.length, n, a, i, l, fallbackScore,
          reviewOffer, reviewMessage n, now⟩], 1⟩ ∧
    fallbackScore = 0.1 ∧
    tierOf (.num fallbackScore) = Tier.review := by
  refine ⟨?_, fallbackScore_eq, by decide⟩
  rw [postClients_good n a i l (fun _ => .failure) true db now fallbackScore hn ha hi rfl]
  rw [deriveOffer_fallback]
  rfl

/-- C2 witness: the scoring service is unreachable for the client
"Sara"; the request still creates the record with score 0.1 and the
review offer. -/
theorem scoring_failure_uses_fallback_witness :
    postClients ⟨.str "Sara", .num 30, .num 50, .num 1⟩ (fun _ => .failure) true [] 7 =
      ⟨.created ⟨0, "Sara", 30, 50, 1, fallbackScore,
          reviewOffer, reviewMessage "Sara", 7⟩,
       [⟨0, "Sara", 30, 50, 1, fallbackScore, reviewOffer, reviewMessage "Sara", 7⟩], 1⟩ :=
  (scoring_failure_uses_fallback "Sara" 30 50 1 [] 7
    (by decide) (by decide) (by decide)).1

/-- C6: when any of the four required fields is absent from the body,
the handler answers 400 with the validation message, issues no outbound
scoring call, and leaves the store untouched. -/
theorem missing_field_fails_fast (b : ReqBody)
    (ai : List (Option ℤ) → AIOutcome) (storeOk : Bool)
    (db : List ClientRecord) (now : ℕ)
    (h : b.name = .undef ∨ b.age = .undef ∨ b.income = .undef ∨ b.loans = .undef) :
    postClients b ai storeOk db now = ⟨.badRequest missingFieldsMsg, db, 0⟩ := by
  have hv : validationFails b = true := by
    rcases h with h | h | h | h <;> simp [validationFails, falsy, h]
  rw [postClients, hv]
  rfl

/-- C6 witness: a body missing the `loans` field is rejected with the
400 message, with no scoring call and no new record. -/
theorem missing_field_fails_fast_witness :
    postClients ⟨.str "Sara", .num 30, .num 50, .undef⟩ (fun _ => .failure) true [] 0 =
      ⟨.badRequest missingFieldsMsg, [], 0⟩ :=
  missing_field_fails_fast ⟨.str "Sara", .num 30, .num 50, .undef⟩
    (fun _ => .failure) true [] 0 (Or.inr (Or.inr (Or.inr rfl)))

/-- C9: numeric zero in `income` or `age` is treated as a missing field
by the truthiness check — the request is rejected with the 400
validation message, no scoring call is made and no record is created —
whereas `loans = 0` passes the `loans === undefined` check and the
request proceeds through the full pipeline (one scoring call, record
created on a reachable store). -/
theorem zero_fields_at_boundary (n : String) (a i l : ℚ)
    (ai : List (Option ℤ) → AIOutcome) (storeOk : Bool)
    (db : List ClientRecord) (now : ℕ)
    (hn : n ≠ "") (ha : a ≠ 0) (hi : i ≠ 0) :
    postClients ⟨.str n, .num a, .num 0, .num l⟩ ai storeOk db now =
      ⟨.badRequest missingFieldsMsg, db, 0⟩ ∧
    postClients ⟨.str n, .num 0, .num i, .num l⟩ ai storeOk db now =
      ⟨.badRequest missingFieldsMsg, db, 0⟩ ∧
    postClients ⟨.str n, .num a, .num i, .num 0⟩ (fun _ => .failure) true db now =
      ⟨.created ⟨db.length, n, a, i, 0, fallbackScore,
          reviewOffer, reviewMessage n, now⟩,
       db ++ [⟨db.length, n, a, i, 0, fallbackScore,
          reviewOffer, reviewMessage n, now⟩], 1⟩ := by
  refine ⟨?_, ?_, ?_⟩
  · have hv : validationFails ⟨.str n, .num a, .num 0, .num l⟩ = true := by
      simp [validationFails, falsy]
    rw [postClients, hv]; rfl
  · have hv : validationFails ⟨.str n, .num 0, .num i, .num l⟩ = true := by
      simp [validationFails, falsy]
    rw [postClients, hv]; rfl
  · rw [postClients_good n a i 0 (fun _ => .failure) true db now fallbackScore hn ha hi rfl]
    rw [deriveOffer_fallback]
    rfl

/-- C9 witness: income 0 is rejected, while loans 0 is onboarded. -/
theorem zero_fields_at_boundary_witness :
    postClients ⟨.str "Sara", .num 30, .num 0, .num 1⟩ (fun _ => .failure) true [] 0 =
      ⟨.badRequest missingFieldsMsg, [], 0⟩ ∧
    postClients ⟨.str "Sara", .num 30, .num 50, .num 0⟩ (fun _ => .failure) true [] 0 =
      ⟨.created ⟨0, "Sara", 30, 50, 0, fallbackScore, reviewOffer, reviewMessage "Sara", 0⟩,
       [⟨0, "Sara", 30, 50, 0, fallbackScore, reviewOffer, reviewMessage "Sara", 0⟩], 1⟩ :=
  ⟨(zero_fields_at_boundary "Sara" 30 50 1 (fun _ => .failure) true [] 0
      (by decide) (by decide) (by decide)).1,
   (zero_fields_at_boundary "Sara" 30 50 1 (fun _ => .failure) true [] 0
      (by decide) (by decide) (by decide)).2.2⟩

/-- C10: a successful onboarding persists the submitted `name`, `age`,
`income` and `loans` values exactly as they arrived in the body — the
`parseInt`ed values of the feature vector are sent to the scoring
service only and never replace the stored fields — and adds only the
score, offer, message, identity and timestamp. -/
theorem persisted_fields_are_raw_input (n : String) (a i l v : ℚ)
    (db : List ClientRecord) (now : ℕ)
    (hn : n ≠ "") (ha : a ≠ 0) (hi : i ≠ 0) :
    postClients ⟨.str n, .num a, .num i, .num l⟩
        (fun _ => .success (.num v)) true db now =
      ⟨.created ⟨db.length, n, a, i, l, v,
          (deriveOffer (.num v) n).1, (deriveOffer (.num v) n).2, now⟩,
       db ++ [⟨db.length, n, a, i, l, v,
          (deriveOffer (.num v) n).1, (deriveOffer (.num v) n).2, now⟩], 1⟩ ∧
    featuresOf ⟨.str n, .num a, .num i, .num l⟩ =
      [jsParseInt (.num a), jsParseInt (.num i), jsParseInt (.num l)] :=
  ⟨postClients_good n a i l (fun _ => .success (.num v)) true db now v hn ha hi rfl,
   rfl⟩

/-- C10 witness: the non-integer submitted age 30.7 is persisted as
30.7 although the feature vector sent to the scoring service carries
the `parseInt` value 30. -/
theorem persisted_fields_are_raw_input_witness :
    postClients ⟨.str "Sara", .num (mkRat 307 10), .num 50, .num 1⟩
        (fun _ => .success (.num (mkRat 9 10))) true [] 0 =
      ⟨.created ⟨0, "Sara", mkRat 307 10, 50, 1, mkRat 9 10,
          (deriveOffer (.num (mkRat 9 10)) "Sara").1,
          (deriveOffer (.num (mkRat 9 10)) "Sara").2, 0⟩,
       [⟨0, "Sara", mkRat 307 10, 50, 1, mkRat 9 10,
          (deriveOffer (.num (mkRat 9 10)) "Sara").1,
          (deriveOffer (.num (mkRat 9 10)) "Sara").2, 0⟩], 1⟩ ∧
    featuresOf ⟨.str "Sara", .num (mkRat 307 10), .num 50, .num 1⟩ =
      [some 30, some 50, some 1] :=
  ⟨(persisted_fields_are_raw_input "Sara" (mkRat 307 10) 50 1 (mkRat 9 10) [] 0
      (by decide) (by decide) (by decide)).1,
   by decide⟩

/-- C3 counterexample: the scoring service responds successfully but
with a malformed body — the `repayment_score` field is absent — for the
valid client "Sara".  The result is not a persisted record with the
fallback score 0.1: the raw `undefined` score fails the schema's
`required` check at save time, the handler answers 500, and the store
is left empty. -/
theorem malformed_success_not_fallback_counterexample :
    postClients ⟨.str "Sara", .num 30, .num 50, .num 1⟩
        (fun _ => .success .undef) true [] 0 =
      ⟨.serverError createErrorMsg, [], 1⟩ := by
  decide

/-- Faithfulness of the `Number(string)` model on representative
numeral forms: the ones JS coerces to finite numbers (including ".5",
"5.", "1e3", " 42 ", "+5", the empty string, hex and signed-exponent
forms), the infinities, and genuinely `NaN` strings. -/
theorem jsStringToNumber_examples :
    jsStringToNumber ".5" = .fin (mkRat 5 10) ∧
    jsStringToNumber "5." = .fin 5 ∧
    jsStringToNumber "1e3" = .fin 1000 ∧
    jsStringToNumber " 42 " = .fin 42 ∧
    jsStringToNumber "+5" = .fin 5 ∧
    jsStringToNumber "" = .fin 0 ∧
    jsStringToNumber "0x1A" = .fin 26 ∧
    jsStringToNumber "1.5e-1" = .fin (mkRat 15 100) ∧
    jsStringToNumber "-2.5" = .fin (-(mkRat 25 10)) ∧
    jsStringToNumber "Infinity" = .inf true ∧
    jsStringToNumber "-Infinity" = .inf false ∧
    jsStringToNumber "abc" = .nan ∧
    jsStringToNumber "+0x10" = .nan ∧
    jsStringToNumber "1e" = .nan ∧
    jsStringToNumber "1.2.3" = .nan := by
  decide

/-- A value that coerces to `NaN` — `undefined` or a string with no
numeric reading — fails the Mongoose `Number` cast. -/
theorem castNumber_eq_none_of_nan (v : JSValue) (h : jsToNum v = JSNum.nan) :
    castNumber v = none := by
  cases v with
  | undef => rfl
  | num q => simp [jsToNum] at h
  | str s =>
    have hs : jsStringToNumber s = JSNum.nan := h
    simp [castNumber, hs]

/-- C3 amended: the fallback score is applied only when the scoring
call itself rejects; on a success response whose `repayment_score`
field coerces to `NaN` — it is absent (`undefined`) or a string with no
numeric reading under `Number(string)` — the raw value is used as the
score, the save rejects (cast error or missing required field), and
onboarding fails with the 500 server error and no record persisted — it
does not succeed with score 0.1.  (A success response whose score field
is a numeric string, such as ".5", is cast by Mongoose and onboarding
succeeds with that value; such bodies are outside this hypothesis.) -/
theorem malformed_success_body_is_not_fallback (n : String) (a i l : ℚ)
    (ai : List (Option ℤ) → AIOutcome) (storeOk : Bool)
    (db : List ClientRecord) (now : ℕ) (v : JSValue)
    (hn : n ≠ "") (ha : a ≠ 0) (hi : i ≠ 0)
    (hai : ai (featuresOf ⟨.str n, .num a, .num i, .num l⟩) = .success v)
    (hv : jsToNum v = JSNum.nan) :
    postClients ⟨.str n, .num a, .num i, .num l⟩ ai storeOk db now =
      ⟨.serverError createErrorMsg, db, 1⟩ := by
  rw [postClients, validationFails_typed n a i l hn ha hi]
  simp only [Bool.false_eq_true, if_false, hai, resolvedScore]
  cases v with
  | undef =>
    simp only [buildClient, castString, castNumber, Option.some_bind, Option.none_bind]
  | num q => simp [jsToNum] at hv
  | str s =>
    have hs : jsStringToNumber s = JSNum.nan := hv
    simp only [buildClient, castString, castNumber, hs, Option.some_bind,
      Option.none_bind]

/-- C3 amended witness: a success response carrying the score string
"oops" — which `Number()` maps to `NaN` — makes the request 500 instead
of falling back. -/
theorem malformed_success_body_is_not_fallback_witness :
    postClients ⟨.str "Sara", .num 30, .num 50, .num 1⟩
        (fun _ => .success (.str "oops")) true [] 0 =
      ⟨.serverError createErrorMsg, [], 1⟩ :=
  malformed_success_body_is_not_fallback "Sara" 30 50 1
    (fun _ => .success (.str "oops")) true [] 0 (.str "oops")
    (by decide) (by decide) (by decide) rfl (by decide)

/-- C4 counterexample: the scoring service returns the numeric score
1.5 for the valid client "Sara".  Onboarding succeeds and persists the
score 1.5 as-is — a record whose score is outside [0,1] — rather than
returning a score in [0,1] or failing with a storage error. -/
theorem score_outside_unit_interval_counterexample :
    (postClients ⟨.str "Sara", .num 30, .num 50, .num 1⟩
        (fun _ => .success (.num (mkRat 3 2))) true [] 0).result =
      .created ⟨0, "Sara", 30, 50, 1, mkRat 3 2,
        premiumOffer, premiumMessage "Sara", 0⟩ ∧
    (mkRat 3 2 : ℚ) = 1.5 ∧ ¬ ((mkRat 3 2 : ℚ) ≤ 1) := by
  refine ⟨by decide, ?_, by decide⟩
  rw [Rat.mkRat_eq_div]; norm_num

/-- C4 amended: for a valid input, when the used score is in range —
the call failed (fallback 0.1) or the service returned a numeric score
in [0,1] — onboarding either persists a record whose score lies in
[0,1] or fails with the 500 storage error; no scoring error is ever
surfaced.  (The handler does not clamp: an out-of-range service score
is persisted as-is, see the counterexample.) -/
theorem onboard_score_in_range_or_storage_error (n : String) (a i l : ℚ)
    (ai : List (Option ℤ) → AIOutcome) (storeOk : Bool)
    (db : List ClientRecord) (now : ℕ)
    (hn : n ≠ "") (ha : a ≠ 0) (hi : i ≠ 0)
    (hai : ai (featuresOf ⟨.str n, .num a, .num i, .num l⟩) = .failure ∨
      ∃ v : ℚ, ai (featuresOf ⟨.str n, .num a, .num i, .num l⟩) = .success (.num v) ∧
        0 ≤ v ∧ v ≤ 1) :
    (∃ c : ClientRecord,
      (postClients ⟨.str n, .num a, .num i, .num l⟩ ai storeOk db now).result =
          .created c ∧
        0 ≤ c.score ∧ c.score ≤ 1 ∧
        (postClients ⟨.str n, .num a, .num i, .num l⟩ ai storeOk db now).db =
          db ++ [c]) ∨
    postClients ⟨.str n, .num a, .num i, .num l⟩ ai storeOk db now =
      ⟨.serverError createErrorMsg, db, 1⟩ := by
  rcases hai with h | ⟨v, hv, h0, h1⟩
  · have hsc : resolvedScore (ai (featuresOf ⟨.str n, .num a, .num i, .num l⟩)) =
        .num fallbackScore := by rw [h]; rfl
    cases storeOk
    · right
      rw [postClients_good n a i l ai false db now fallbackScore hn ha hi hsc]
      rfl
    · left
      rw [postClients_good n a i l ai true db now fallbackScore hn ha hi hsc]
      exact ⟨_, rfl, (show (0:ℚ) ≤ fallbackScore by decide),
        (show fallbackScore ≤ (1:ℚ) by decide), rfl⟩
  · have hsc : resolvedScore (ai (featuresOf ⟨.str n, .num a, .num i, .num l⟩)) =
        .num v := by rw [hv]; rfl
    cases storeOk
    · right
      rw [postClients_good n a i l ai false db now v hn ha hi hsc]
      rfl
    · left
      rw [postClients_good n a i l ai true db now v hn ha hi hsc]
      exact ⟨_, rfl, h0, h1, rfl⟩

/-- C4 amended witness: the service returns 0.9 for "Sara"; the
persisted record's score lies in [0,1]. -/
theorem onboard_score_in_range_witness :
    (∃ c : ClientRecord,
      (postClients ⟨.str "Sara", .num 30, .num 50, .num 1⟩
          (fun _ => .success (.num (mkRat 9 10))) true [] 0).result = .created c ∧
        0 ≤ c.score ∧ c.score ≤ 1 ∧
        (postClients ⟨.str "Sara", .num 30, .num 50, .num 1⟩
          (fun _ => .success (.num (mkRat 9 10))) true [] 0).db = [] ++ [c]) ∨
    postClients ⟨.str "Sara", .num 30, .num 50, .num 1⟩
        (fun _ => .success (.num (mkRat 9 10))) true [] 0 =
      ⟨.serverError createErrorMsg, [], 1⟩ :=
  onboard_score_in_range_or_storage_error "Sara" 30 50 1
    (fun _ => .success (.num (mkRat 9 10))) true [] 0
    (by decide) (by decide) (by decide)
    (Or.inr ⟨mkRat 9 10, rfl, by decide, by decide⟩)

/-- C5 counterexample: a body whose `age` is the non-numeric string
"abc" is not rejected with the 400 validation error before any external
call: the truthiness check passes it, the scoring call is issued
(`aiCalls = 1`), and the request fails at persistence with the 500
server error. -/
theorem nonnumeric_age_counterexample :
    postClients ⟨.str "Bob", .str "abc", .num 50, .num 1⟩
        (fun _ => .success (.num (mkRat 9 10))) true [] 0 =
      ⟨.serverError createErrorMsg, [], 1⟩ := by
  decide

/-- C5 amended: a required field that is present as a non-empty string
that `Number(string)` maps to `NaN` (here `age`, e.g. "abc") passes the
presence check, the outbound scoring call is issued, and the request
fails at the Mongoose cast during save with the 500 server error — not
with the 400 validation error, and not before the external call.  No
record is created.  (A numeric-string field such as ".5" or "1e3" is
cast by Mongoose and onboarding succeeds; such inputs are outside this
hypothesis.) -/
theorem nonnumeric_field_passes_validation (n s : String) (i l : ℚ)
    (ai : List (Option ℤ) → AIOutcome) (storeOk : Bool)
    (db : List ClientRecord) (now : ℕ)
    (hn : n ≠ "") (hs : s ≠ "") (hnum : jsStringToNumber s = JSNum.nan)
    (hi : i ≠ 0) :
    postClients ⟨.str n, .str s, .num i, .num l⟩ ai storeOk db now =
      ⟨.serverError createErrorMsg, db, 1⟩ := by
  have hv : validationFails ⟨.str n, .str s, .num i, .num l⟩ = false := by
    simp [validationFails, falsy, hn, hs, hi]
  rw [postClients, hv]
  simp only [Bool.false_eq_true, if_false]
  simp only [buildClient, castString, castNumber, Option.some_bind, hnum,
    Option.none_bind]

/-- C5 amended witness: age "abc" with an unreachable scoring service
still reaches the store and fails there with the 500 error. -/
theorem nonnumeric_field_passes_validation_witness :
    postClients ⟨.str "Bob", .str "abc", .num 50, .num 1⟩
        (fun _ => .failure) true [] 0 =
      ⟨.serverError createErrorMsg, [], 1⟩ :=
  nonnumeric_field_passes_validation "Bob" "abc" 50 1 (fun _ => .failure) true [] 0
    (by decide) (by decide) (by decide) (by decide)

/-- C8: the listing operation returns all persisted records (a
permutation of the store's contents) ordered by creation time with the
most recent first, leaves the store unchanged, and its only failure
mode is the 500 storage error when the read fails. -/
theorem listing_read_only_sorted (storeOk : Bool) (db : List ClientRecord) :
    (getClients storeOk db).2 = db ∧
    (storeOk = true →
      (getClients storeOk db).1 = GetResult.ok (sortByCreatedDesc db) ∧
      List.Perm (sortByCreatedDesc db) db ∧
      List.Sorted byCreatedDesc (sortByCreatedDesc db)) ∧
    (storeOk = false →
      (getClients storeOk db).1 = GetResult.serverError fetchErrorMsg) := by
  refine ⟨?_, ?_, ?_⟩
  · cases storeOk <;> rfl
  · intro h; subst h
    exact ⟨rfl, List.perm_insertionSort _ _, List.sorted_insertionSort _ _⟩
  · intro h; subst h; rfl

/-- C8 witness: after two onboarded clients with creation times 1 and
5, the listing returns both records, the more recent one first, and the
store is unchanged. -/
theorem listing_read_only_sorted_witness :
    (getClients true
      [⟨0, "A", 30, 50, 1, fallbackScore, reviewOffer, reviewMessage "A", 1⟩,
       ⟨1, "B", 40, 60, 2, fallbackScore, reviewOffer, reviewMessage "B", 5⟩]).2 =
      [⟨0, "A", 30, 50, 1, fallbackScore, reviewOffer, reviewMessage "A", 1⟩,
       ⟨1, "B", 40, 60, 2, fallbackScore, reviewOffer, reviewMessage "B", 5⟩] ∧
    (getClients true
      [⟨0, "A", 30, 50, 1, fallbackScore, reviewOffer, reviewMessage "A", 1⟩,
       ⟨1, "B", 40, 60, 2, fallbackScore, reviewOffer, reviewMessage "B", 5⟩]).1 =
      GetResult.ok
        [⟨1, "B", 40, 60, 2, fallbackScore, reviewOffer, reviewMessage "B", 5⟩,
         ⟨0, "A", 30, 50, 1, fallbackScore, reviewOffer, reviewMessage "A", 1⟩] :=
  ⟨(listing_read_only_sorted true
      [⟨0, "A", 30, 50, 1, fallbackScore, reviewOffer, reviewMessage "A", 1⟩,
       ⟨1, "B", 40, 60, 2, fallbackScore, reviewOffer, reviewMessage "B", 5⟩]).1,
   ((listing_read_only_sorted true
      [⟨0, "A", 30, 50, 1, fallbackScore, reviewOffer, reviewMessage "A", 1⟩,
       ⟨1, "B", 40, 60, 2, fallbackScore, reviewOffer, reviewMessage "B", 5⟩]).2.1
      rfl).1.trans (by decide)⟩

end Flexiloan
